import Mathlib

/-!
# Verification of the `flock` package (exclusive file lock)

Shallow embedding of `src/flock/flock.go`: a thin wrapper `Flock` around the
external advisory-lock primitive `github.com/gofrs/flock`, overriding only
`Unlock` to remove the backing artifact before delegating to the primitive's
unlock.

The OS/primitive layer (gofrs `flock` and `os.Remove`) is external to the
repository and assumed correct by the spec; it is modelled here as a
path-keyed advisory lock over an explicit system state.  Every operation
returns its result, the successor state, and the trace of OS calls it issued,
so that ordering and "was the call attempted" claims are statable.
-/

/-- A Go `error` value, abstracted: `notExist` is the `os.Remove` error for a
missing file; `ioErr` stands for any other OS-level failure. -/
inductive GoError : Type
  | notExist : GoError
  | ioErr : Nat → GoError
deriving DecidableEq, Repr

/-- An OS call issued by the lock operations (the observable side effects). -/
inductive Eff : Type
  | osRemove : String → Eff
  | osTryFlock : Nat → String → Eff
  | osFlock : Nat → String → Eff
  | osUnflock : Nat → String → Eff
deriving DecidableEq, Repr

/-- The shared system state: which handle (by id) holds the OS advisory lock
on which path, and which paths currently exist on the filesystem. -/
structure SysState : Type where
  held : List (Nat × String)
  fs : List String
deriving DecidableEq, Repr

/-- Modelled from the spec: a handle of the external primitive
`github.com/gofrs/flock` (not part of src/), bound to a path; `id`
distinguishes handle instances (Go distinguishes them by pointer). -/
structure ExtFlock : Type where
  id : Nat
  path : String
deriving DecidableEq, Repr

/-- Result of a try-acquire: the boolean, the error, the new state, the
OS-call trace. -/
structure TryRes : Type where
  locked : Bool
  err : Option GoError
  state : SysState
  trace : List Eff
deriving DecidableEq, Repr

/-- Outcome of a blocking acquire in the sequential model: either the lock was
acquired, or the call would block (suspend) at this state. -/
inductive LockOutcome : Type
  | acquired : LockOutcome
  | wouldBlock : LockOutcome
deriving DecidableEq, Repr

/-- Result of a blocking acquire. -/
structure LockRes : Type where
  outcome : LockOutcome
  err : Option GoError
  state : SysState
  trace : List Eff
deriving DecidableEq, Repr

/-- Result of an unlock / release. -/
structure UnlockRes : Type where
  err : Option GoError
  state : SysState
  trace : List Eff
deriving DecidableEq, Repr

/-- Result of `os.Remove`. -/
structure RemoveRes : Type where
  err : Option GoError
  state : SysState
  trace : List Eff
deriving DecidableEq, Repr

/-- Modelled from the spec: Go's `os.Remove` (stdlib, not part of src/):
deletes the filesystem entry at `p`; reports a not-exist error when the entry
is absent. -/
def osRemove (st : SysState) (p : String) : RemoveRes :=
  if p ∈ st.fs then
    ⟨none, { st with fs := st.fs.filter (fun q => !(q == p)) }, [Eff.osRemove p]⟩
  else
    ⟨some GoError.notExist, st, [Eff.osRemove p]⟩

/-- Modelled from the spec: `flockExt.New` of the external primitive — pure
construction of a handle bound to `path`; no I/O, no failure mode. -/
def ExtFlock.New (id : Nat) (path : String) : ExtFlock := ⟨id, path⟩

/-- Modelled from the spec: the primitive's `Path` accessor. -/
def ExtFlock.Path (h : ExtFlock) : String := h.path

/-- Modelled from the spec: the primitive's non-blocking `TryLock`.  A handle
already holding succeeds trivially without an OS call; otherwise the backing
artifact is created as a side effect of the attempt, and the attempt succeeds
iff no handle currently holds the lock on this path.  Contention is reported
as `(false, nil)` — not an error. -/
def ExtFlock.TryLock (st : SysState) (h : ExtFlock) : TryRes :=
  if (h.id, h.path) ∈ st.held then
    ⟨true, none, st, []⟩
  else
    let st1 : SysState := { st with fs := st.fs.insert h.path }
    if st.held.any (fun e => e.2 == h.path) then
      ⟨false, none, st1, [Eff.osTryFlock h.id h.path]⟩
    else
      ⟨true, none, { st1 with held := (h.id, h.path) :: st.held }, [Eff.osTryFlock h.id h.path]⟩

/-- Modelled from the spec: the primitive's blocking `Lock`.  In this
sequential interleaving model a blocked call is represented by the
`wouldBlock` outcome with the state otherwise unchanged (apart from artifact
creation). -/
def ExtFlock.Lock (st : SysState) (h : ExtFlock) : LockRes :=
  if (h.id, h.path) ∈ st.held then
    ⟨LockOutcome.acquired, none, st, []⟩
  else
    let st1 : SysState := { st with fs := st.fs.insert h.path }
    if st.held.any (fun e => e.2 == h.path) then
      ⟨LockOutcome.wouldBlock, none, st1, [Eff.osFlock h.id h.path]⟩
    else
      ⟨LockOutcome.acquired, none, { st1 with held := (h.id, h.path) :: st.held }, [Eff.osFlock h.id h.path]⟩

/-- Modelled from the spec: the primitive's `Unlock`.  A handle that does not
hold the lock returns `nil` without any OS call (safe no-op).  For a holder,
the OS unflock call is issued; `uerr` is the oracle for that call's outcome
(the primitive may genuinely fail): on failure the state is unchanged and the
error is returned, on success the holder's registration is cleared. -/
def ExtFlock.Unlock (st : SysState) (h : ExtFlock) (uerr : Option GoError) : UnlockRes :=
  if (h.id, h.path) ∈ st.held then
    match uerr with
    | some e => ⟨some e, st, [Eff.osUnflock h.id h.path]⟩
    | none =>
        ⟨none,
         { st with held := st.held.filter (fun e => !(e.1 == h.id && e.2 == h.path)) },
         [Eff.osUnflock h.id h.path]⟩
  else
    ⟨none, st, []⟩

/-- The repository's `flock.Flock`: a struct embedding the external
primitive's handle (`type Flock struct { *flockExt.Flock }`). -/
structure Flock : Type where
  inner : ExtFlock
deriving DecidableEq, Repr

/-- `flock.New` (flock.go): `return &Flock{flockExt.New(path)}`. -/
def Flock.New (id : Nat) (path : String) : Flock := ⟨ExtFlock.New id path⟩

/-- `Path`, promoted from the embedded `flockExt.Flock`. -/
def Flock.Path (l : Flock) : String := ExtFlock.Path l.inner

/-- `TryLock`, promoted from the embedded `flockExt.Flock` (not overridden). -/
def Flock.TryLock (st : SysState) (l : Flock) : TryRes :=
  ExtFlock.TryLock st l.inner

/-- `Lock`, promoted from the embedded `flockExt.Flock` (not overridden). -/
def Flock.Lock (st : SysState) (l : Flock) : LockRes :=
  ExtFlock.Lock st l.inner

/-- `Unlock` (flock.go), the only overridden method:
`os.Remove(l.Path()); return l.Flock.Unlock()` — the removal's error is
discarded, the primitive's unlock error is returned. -/
def Flock.Unlock (st : SysState) (l : Flock) (uerr : Option GoError) : UnlockRes :=
  let r1 := osRemove st (Flock.Path l)
  let r2 := ExtFlock.Unlock r1.state l.inner uerr
  ⟨r2.err, r2.state, r1.trace ++ r2.trace⟩

/-- One atomic OS-level step by an arbitrary handle (any id, any path): the
interleaving model for concurrent threads/processes.  The wrapper's `Unlock`
is the composition of a `remove` step and an `unlock` step, so interleavings
inside it are covered as well. -/
inductive Step : SysState → SysState → Prop
  | tryLock (st : SysState) (h : ExtFlock) : Step st (ExtFlock.TryLock st h).state
  | lock (st : SysState) (h : ExtFlock) : Step st (ExtFlock.Lock st h).state
  | unlock (st : SysState) (h : ExtFlock) (uerr : Option GoError) :
      Step st (ExtFlock.Unlock st h uerr).state
  | remove (st : SysState) (p : String) : Step st (osRemove st p).state

/-- Initial state: no holder; an arbitrary set of (possibly stale) artifacts
may pre-exist. -/
def initState (fs0 : List String) : SysState := ⟨[], fs0⟩

/-- States reachable from an initial state by arbitrary interleavings. -/
def Reachable (fs0 : List String) (st : SysState) : Prop :=
  Relation.ReflTransGen Step (initState fs0) st

/-- Mutual-exclusion invariant: any two hold-registrations on the same path
belong to the same handle. -/
def mutexInv (st : SysState) : Prop :=
  ∀ x ∈ st.held, ∀ y ∈ st.held, x.2 = y.2 → x.1 = y.1

instance (st : SysState) : Decidable (mutexInv st) := by
  unfold mutexInv; infer_instance

lemma mutexInv_tryLock (st : SysState) (h : ExtFlock) (hinv : mutexInv st) :
    mutexInv (ExtFlock.TryLock st h).state := by
  unfold ExtFlock.TryLock
  split
  · exact hinv
  · split
    · exact hinv
    · rename_i hany
      intro x hx y hy hxy
      rcases List.mem_cons.mp hx with hx1 | hx2 <;>
        rcases List.mem_cons.mp hy with hy1 | hy2
      · rw [hx1, hy1]
      · exfalso
        have : (y.2 == h.path) = true := by
          have : y.2 = h.path := by rw [← hxy, hx1]
          simp [this]
        exact hany (List.any_eq_true.mpr ⟨y, hy2, this⟩)
      · exfalso
        have : (x.2 == h.path) = true := by
          have : x.2 = h.path := by rw [hxy, hy1]
          simp [this]
        exact hany (List.any_eq_true.mpr ⟨x, hx2, this⟩)
      · exact hinv x hx2 y hy2 hxy

lemma mutexInv_lock (st : SysState) (h : ExtFlock) (hinv : mutexInv st) :
    mutexInv (ExtFlock.Lock st h).state := by
  unfold ExtFlock.Lock
  split
  · exact hinv
  · split
    · exact hinv
    · rename_i hany
      intro x hx y hy hxy
      rcases List.mem_cons.mp hx with hx1 | hx2 <;>
        rcases List.mem_cons.mp hy with hy1 | hy2
      · rw [hx1, hy1]
      · exfalso
        have : (y.2 == h.path) = true := by
          have : y.2 = h.path := by rw [← hxy, hx1]
          simp [this]
        exact hany (List.any_eq_true.mpr ⟨y, hy2, this⟩)
      · exfalso
        have : (x.2 == h.path) = true := by
          have : x.2 = h.path := by rw [hxy, hy1]
          simp [this]
        exact hany (List.any_eq_true.mpr ⟨x, hx2, this⟩)
      · exact hinv x hx2 y hy2 hxy

lemma mutexInv_unlock (st : SysState) (h : ExtFlock) (uerr : Option GoError)
    (hinv : mutexInv st) : mutexInv (ExtFlock.Unlock st h uerr).state := by
  unfold ExtFlock.Unlock
  split
  · match uerr with
    | some e => exact hinv
    | none =>
        intro x hx y hy hxy
        exact hinv x (List.mem_of_mem_filter hx) y (List.mem_of_mem_filter hy) hxy
  · exact hinv

lemma mutexInv_remove (st : SysState) (p : String) (hinv : mutexInv st) :
    mutexInv (osRemove st p).state := by
  unfold osRemove
  split
  · exact hinv
  · exact hinv

lemma reachable_mutexInv {fs0 : List String} {st : SysState}
    (h : Reachable fs0 st) : mutexInv st := by
  induction h with
  | refl => intro x hx _ _ _; simp [initState] at hx
  | tail _ hstep ih =>
      cases hstep with
      | tryLock h => exact mutexInv_tryLock _ h ih
      | lock h => exact mutexInv_lock _ h ih
      | unlock h uerr => exact mutexInv_unlock _ h uerr ih
      | remove p => exact mutexInv_remove _ p ih

lemma tryLock_contended (st : SysState) (h : ExtFlock) (hinv : mutexInv st)
    (a : Nat) (ha : (a, h.path) ∈ st.held) (hne : h.id ≠ a) :
    (ExtFlock.TryLock st h).locked = false ∧ (ExtFlock.TryLock st h).err = none := by
  have h1 : (h.id, h.path) ∉ st.held := by
    intro hmem
    exact hne (hinv (h.id, h.path) hmem (a, h.path) ha rfl)
  have h2 : st.held.any (fun e => e.2 == h.path) = true :=
    List.any_eq_true.mpr ⟨(a, h.path), ha, by simp⟩
  unfold ExtFlock.TryLock
  rw [if_neg h1, if_pos h2]
  exact ⟨rfl, rfl⟩

lemma osRemove_held (st : SysState) (p : String) :
    (osRemove st p).state.held = st.held := by
  unfold osRemove
  split <;> rfl

lemma osRemove_not_mem_fs (st : SysState) (p : String) :
    p ∉ (osRemove st p).state.fs := by
  unfold osRemove
  split
  · intro hmem
    have := (List.mem_filter.mp hmem).2
    simp at this
  · rename_i hnot
    exact hnot

lemma extUnlock_fs (st : SysState) (h : ExtFlock) (uerr : Option GoError) :
    (ExtFlock.Unlock st h uerr).state.fs = st.fs := by
  unfold ExtFlock.Unlock
  split
  · match uerr with
    | some _ => rfl
    | none => rfl
  · rfl

lemma osRemove_trace (st : SysState) (p : String) :
    (osRemove st p).trace = [Eff.osRemove p] := by
  unfold osRemove
  split <;> rfl

lemma extUnlock_trace (st : SysState) (h : ExtFlock) (uerr : Option GoError) :
    (ExtFlock.Unlock st h uerr).trace =
      if (h.id, h.path) ∈ st.held then [Eff.osUnflock h.id h.path] else [] := by
  by_cases hmem : (h.id, h.path) ∈ st.held
  · cases uerr <;> simp [ExtFlock.Unlock, hmem]
  · simp [ExtFlock.Unlock, hmem]

lemma extUnlock_err (st : SysState) (h : ExtFlock) (uerr : Option GoError) :
    (ExtFlock.Unlock st h uerr).err =
      if (h.id, h.path) ∈ st.held then uerr else none := by
  by_cases hmem : (h.id, h.path) ∈ st.held
  · cases uerr <;> simp [ExtFlock.Unlock, hmem]
  · simp [ExtFlock.Unlock, hmem]

lemma extUnlock_not_holder (st : SysState) (h : ExtFlock) (uerr : Option GoError)
    (hmem : (h.id, h.path) ∉ st.held) :
    ExtFlock.Unlock st h uerr = ⟨none, st, []⟩ := by
  simp [ExtFlock.Unlock, hmem]

/-- The state reached from the empty initial state after one successful
try-acquire by handle 1 on path "p" (used to witness the reachability
hypothesis of the mutual-exclusion theorem). -/
def oneHolderState : SysState :=
  (ExtFlock.TryLock (initState []) (ExtFlock.New 1 "p")).state

/-- C1: across all handles bound to the same path, in every state reachable
by arbitrary interleavings of lock operations, at most one handle is
registered as holder of a given path; and while handle `a` holds a path, a
try-acquire by any other handle `B` on that path returns not-acquired. -/
theorem flock_mutual_exclusion (fs0 : List String) (st : SysState)
    (hr : Reachable fs0 st) :
    (∀ a b p, (a, p) ∈ st.held → (b, p) ∈ st.held → a = b) ∧
    (∀ B : Flock, ∀ a, (a, Flock.Path B) ∈ st.held → B.inner.id ≠ a →
      (Flock.TryLock st B).locked = false) := by
  have hinv := reachable_mutexInv hr
  constructor
  · intro a b p ha hb
    exact hinv (a, p) ha (b, p) hb rfl
  · intro B a ha hne
    exact (tryLock_contended st B.inner hinv a ha hne).1

/-- Witness for C1 at the concrete reachable state with one holder. -/
theorem flock_mutual_exclusion_witness :
    Reachable [] oneHolderState ∧
    ((∀ a b p, (a, p) ∈ oneHolderState.held → (b, p) ∈ oneHolderState.held → a = b) ∧
     (∀ B : Flock, ∀ a, (a, Flock.Path B) ∈ oneHolderState.held → B.inner.id ≠ a →
       (Flock.TryLock oneHolderState B).locked = false)) :=
  have hr : Reachable [] oneHolderState :=
    Relation.ReflTransGen.single (Step.tryLock (initState []) (ExtFlock.New 1 "p"))
  ⟨hr, flock_mutual_exclusion [] oneHolderState hr⟩

/-- C2 counterexample: at a concrete state where handle 1 holds path "p",
`Unlock` issues the OS calls in the order remove-then-unflock, not the
unflock-then-remove order the claim states. -/
theorem flock_unlock_order_counterexample :
    (Flock.Unlock ⟨[(1, "p")], ["p"]⟩ (Flock.New 1 "p") none).trace =
      [Eff.osRemove "p", Eff.osUnflock 1 "p"] ∧
    (Flock.Unlock ⟨[(1, "p")], ["p"]⟩ (Flock.New 1 "p") none).trace ≠
      [Eff.osUnflock 1 "p", Eff.osRemove "p"] := by
  decide

/-- C2 (amended): `Unlock` first attempts deletion of the backing artifact,
then releases the OS-level lock: its OS-call trace is the remove call
followed by the unflock call (the latter only when the handle holds). -/
theorem flock_unlock_remove_before_unflock (st : SysState) (l : Flock)
    (uerr : Option GoError) :
    (Flock.Unlock st l uerr).trace =
      if (l.inner.id, l.inner.path) ∈ st.held then
        [Eff.osRemove (Flock.Path l), Eff.osUnflock l.inner.id l.inner.path]
      else
        [Eff.osRemove (Flock.Path l)] := by
  show (osRemove st (Flock.Path l)).trace ++
      (ExtFlock.Unlock (osRemove st (Flock.Path l)).state l.inner uerr).trace = _
  rw [osRemove_trace, extUnlock_trace, osRemove_held]
  by_cases hmem : (l.inner.id, l.inner.path) ∈ st.held <;> simp [hmem]

/-- C3: after a `Unlock` whose result reports success, the backing artifact
at the bound path does not exist on the filesystem. -/
theorem flock_unlock_cleanup (st : SysState) (l : Flock) (uerr : Option GoError)
    (hsucc : (Flock.Unlock st l uerr).err = none) :
    Flock.Path l ∉ (Flock.Unlock st l uerr).state.fs := by
  show Flock.Path l ∉ (ExtFlock.Unlock (osRemove st (Flock.Path l)).state l.inner uerr).state.fs
  rw [extUnlock_fs]
  exact osRemove_not_mem_fs st (Flock.Path l)

/-- Witness for C3: a concrete successful release leaves no artifact. -/
theorem flock_unlock_cleanup_witness :
    (Flock.Unlock ⟨[(1, "p")], ["p"]⟩ (Flock.New 1 "p") none).err = none ∧
    Flock.Path (Flock.New 1 "p") ∉
      (Flock.Unlock ⟨[(1, "p")], ["p"]⟩ (Flock.New 1 "p") none).state.fs :=
  ⟨by decide, flock_unlock_cleanup ⟨[(1, "p")], ["p"]⟩ (Flock.New 1 "p") none (by decide)⟩

/-- C4: the error returned by `Unlock` is exactly the error of the underlying
unlock step — the oracle `uerr` when the handle holds (the only case where
the OS unflock call runs), `nil` otherwise; the artifact-removal error is
discarded and never becomes the returned error. -/
theorem flock_unlock_error_from_unlock_step (st : SysState) (l : Flock)
    (uerr : Option GoError) :
    (Flock.Unlock st l uerr).err =
      (ExtFlock.Unlock (osRemove st (Flock.Path l)).state l.inner uerr).err ∧
    (Flock.Unlock st l uerr).err =
      (if (l.inner.id, l.inner.path) ∈ st.held then uerr else none) := by
  refine ⟨rfl, ?_⟩
  show (ExtFlock.Unlock (osRemove st (Flock.Path l)).state l.inner uerr).err = _
  rw [extUnlock_err, osRemove_held]

/-- C5: releasing a handle that does not hold the lock (never acquired, or
already released) returns `nil` and leaves every hold-registration — in
particular any other handle currently holding the same path — unchanged. -/
theorem flock_unlock_not_holder_safe (st : SysState) (l : Flock)
    (uerr : Option GoError)
    (hmem : (l.inner.id, l.inner.path) ∉ st.held) :
    (Flock.Unlock st l uerr).err = none ∧
    (Flock.Unlock st l uerr).state.held = st.held := by
  have h1 : (l.inner.id, l.inner.path) ∉ (osRemove st (Flock.Path l)).state.held := by
    rw [osRemove_held]
    exact hmem
  constructor
  · show (ExtFlock.Unlock (osRemove st (Flock.Path l)).state l.inner uerr).err = none
    rw [extUnlock_err, osRemove_held, if_neg hmem]
  · show (ExtFlock.Unlock (osRemove st (Flock.Path l)).state l.inner uerr).state.held = st.held
    rw [extUnlock_not_holder _ _ _ h1]
    exact osRemove_held st (Flock.Path l)

/-- Witness for C5: handle 1 (which never held) is released while handle 2
holds the same path; the call returns `nil` and handle 2's hold survives. -/
theorem flock_unlock_not_holder_safe_witness :
    ((ExtFlock.New 1 "p").id, (ExtFlock.New 1 "p").path) ∉
      (SysState.mk [(2, "p")] ["p"]).held ∧
    ((Flock.Unlock ⟨[(2, "p")], ["p"]⟩ (Flock.New 1 "p") none).err = none ∧
     (Flock.Unlock ⟨[(2, "p")], ["p"]⟩ (Flock.New 1 "p") none).state.held =
       (SysState.mk [(2, "p")] ["p"]).held) :=
  ⟨by decide, flock_unlock_not_holder_safe ⟨[(2, "p")], ["p"]⟩ (Flock.New 1 "p") none (by decide)⟩

/-- C6: the concrete scenario of `TestTryLock` — two handles on the same
initially absent path; first try-acquire succeeds, the second fails without
error, after release the other can acquire, and after the final release no
artifact remains. -/
theorem flock_trylock_scenario :
    (Flock.TryLock (initState []) (Flock.New 1 "p")).locked = true ∧
    (Flock.TryLock (initState []) (Flock.New 1 "p")).err = none ∧
    (Flock.TryLock (Flock.TryLock (initState []) (Flock.New 1 "p")).state
        (Flock.New 2 "p")).locked = false ∧
    (Flock.TryLock (Flock.TryLock (initState []) (Flock.New 1 "p")).state
        (Flock.New 2 "p")).err = none ∧
    (Flock.Unlock
        (Flock.TryLock (Flock.TryLock (initState []) (Flock.New 1 "p")).state
          (Flock.New 2 "p")).state
        (Flock.New 1 "p") none).err = none ∧
    (Flock.TryLock
        (Flock.Unlock
          (Flock.TryLock (Flock.TryLock (initState []) (Flock.New 1 "p")).state
            (Flock.New 2 "p")).state
          (Flock.New 1 "p") none).state
        (Flock.New 2 "p")).locked = true ∧
    (Flock.TryLock
        (Flock.Unlock
          (Flock.TryLock (Flock.TryLock (initState []) (Flock.New 1 "p")).state
            (Flock.New 2 "p")).state
          (Flock.New 1 "p") none).state
        (Flock.New 2 "p")).err = none ∧
    (Flock.Unlock
        (Flock.TryLock
          (Flock.Unlock
            (Flock.TryLock (Flock.TryLock (initState []) (Flock.New 1 "p")).state
              (Flock.New 2 "p")).state
            (Flock.New 1 "p") none).state
          (Flock.New 2 "p")).state
        (Flock.New 2 "p") none).err = none ∧
    "p" ∉
      (Flock.Unlock
        (Flock.TryLock
          (Flock.Unlock
            (Flock.TryLock (Flock.TryLock (initState []) (Flock.New 1 "p")).state
              (Flock.New 2 "p")).state
            (Flock.New 1 "p") none).state
          (Flock.New 2 "p")).state
        (Flock.New 2 "p") none).state.fs := by
  decide

/-- C7: the artifact-removal call is the first OS call of every `Unlock`,
whatever the unlock step's outcome `uerr` — cleanup is attempted even when
the unlock step fails. -/
theorem flock_unlock_always_attempts_remove (st : SysState) (l : Flock)
    (uerr : Option GoError) :
    (Flock.Unlock st l uerr).trace.head? = some (Eff.osRemove (Flock.Path l)) := by
  show ((osRemove st (Flock.Path l)).trace ++
      (ExtFlock.Unlock (osRemove st (Flock.Path l)).state l.inner uerr).trace).head? = _
  rw [osRemove_trace]
  rfl

/-- C8: when try-acquire fails because another handle holds the lock on the
same path, the boolean is `false` and the error is `nil` — contention is not
reported as an error. -/
theorem flock_trylock_contention_not_error (st : SysState) (l : Flock) (a : Nat)
    (hinv : mutexInv st) (ha : (a, Flock.Path l) ∈ st.held)
    (hne : l.inner.id ≠ a) :
    (Flock.TryLock st l).locked = false ∧ (Flock.TryLock st l).err = none :=
  tryLock_contended st l.inner hinv a ha hne

/-- Witness for C8: handle 1 try-acquires while handle 2 holds the path. -/
theorem flock_trylock_contention_not_error_witness :
    mutexInv ⟨[(2, "p")], ["p"]⟩ ∧
    (2, Flock.Path (Flock.New 1 "p")) ∈ (SysState.mk [(2, "p")] ["p"]).held ∧
    (Flock.New 1 "p").inner.id ≠ 2 ∧
    ((Flock.TryLock ⟨[(2, "p")], ["p"]⟩ (Flock.New 1 "p")).locked = false ∧
     (Flock.TryLock ⟨[(2, "p")], ["p"]⟩ (Flock.New 1 "p")).err = none) :=
  ⟨by decide, by decide, by decide,
   flock_trylock_contention_not_error ⟨[(2, "p")], ["p"]⟩ (Flock.New 1 "p") 2
     (by decide) (by decide) (by decide)⟩

/-- C9: `New` is a pure total function — it always returns a handle bound to
the given path (its type, `Nat → String → Flock` with no state argument and
no error result, embeds "no I/O, cannot fail"), and independently constructed
handles on the same path are bound to the same path. -/
theorem flock_new_binds_path (i j : Nat) (p : String) :
    Flock.Path (Flock.New i p) = p ∧
    Flock.Path (Flock.New j p) = Flock.Path (Flock.New i p) :=
  ⟨rfl, rfl⟩

/-- C10: only `Unlock` is overridden — `TryLock`, `Lock` and `Path` of the
wrapper coincide with the embedded primitive's methods on every state. -/
theorem flock_promotes_non_unlock_methods (st : SysState) (l : Flock) :
    Flock.TryLock st l = ExtFlock.TryLock st l.inner ∧
    Flock.Lock st l = ExtFlock.Lock st l.inner ∧
    Flock.Path l = ExtFlock.Path l.inner :=
  ⟨rfl, rfl, rfl⟩
